import Mathlib

/-
Verification development for the tossinapp-ar monocular SLAM core.

The C++ sources under ar-engine/src/cpp are shallowly embedded here:

  * slam_system.cpp  -- SLAM state machine (initialize / track / keyframes /
    triangulation / loop closure), embedded over exact rationals; the external
    OpenCV primitives (ORB extraction, BFMatcher, findEssentialMat,
    recoverPose, solvePnPRansac, triangulatePoints, Rodrigues) are supplied as
    oracle inputs in environment records, exactly as the code consumes their
    results.
  * plane_detector.cpp -- RANSAC plane fitting and merging, embedded over the
    real numbers (the code normalises vectors with a square root).
  * image_target.cpp -- per-target detection pipeline over rationals.
  * hit_test.cpp     -- ray/plane intersection over rationals.
  * bindings.cpp     -- matToArray serialisation of 4x4 matrices.

Floating point arithmetic is modelled by exact arithmetic (rationals, or reals
where square roots occur); all comparison thresholds are the literal constants
of the source.
-/

namespace ARSpec

/-- Exact rational 3-vector, modelling cv Point3f values. -/
structure V3 where
  x : ℚ
  y : ℚ
  z : ℚ
deriving DecidableEq, Repr

/-- Exact rational homogeneous 4-vector, modelling the triangulatePoints output column. -/
structure V4 where
  x : ℚ
  y : ℚ
  z : ℚ
  w : ℚ
deriving DecidableEq, Repr

/-- Image keypoint position, modelling cv KeyPoint pt. -/
structure KeyPt where
  x : ℚ
  y : ℚ
deriving DecidableEq, Repr

/-- Descriptor rows are opaque tokens: all the code ever does with them is hand
them to the external Hamming matcher, whose results arrive as oracle inputs. -/
abbrev Desc := Nat

/-- A descriptor match as produced by the BFMatcher, modelling cv DMatch. -/
structure DMatch where
  queryIdx : Nat
  trainIdx : Nat
  distance : ℚ
deriving DecidableEq, Repr

/- ===================== hit_test.cpp ===================== -/

/-- Ray with origin and direction, modelling Ray3D of hit_test.h. -/
structure Ray3D where
  ox : ℚ
  oy : ℚ
  oz : ℚ
  dx : ℚ
  dy : ℚ
  dz : ℚ
deriving DecidableEq, Repr

/-- Plane nx*x + ny*y + nz*z + d = 0, modelling Plane3D of hit_test.h. -/
structure Plane3D where
  nx : ℚ
  ny : ℚ
  nz : ℚ
  d : ℚ
deriving DecidableEq, Repr

/-- Hit test result record, modelling HitTestResult of hit_test.h. -/
structure HitTestResult where
  hit : Bool := false
  x : ℚ := 0
  y : ℚ := 0
  z : ℚ := 0
  distance : ℚ := 0
  planeId : Int := -1
  confidence : ℚ := 0
deriving DecidableEq, Repr

/-- Absolute value on rationals, as std abs of the source. -/
def ratAbs (q : ℚ) : ℚ := if q < 0 then -q else q

/-- The default ground plane y = 0 installed by HitTester setDefaultGroundPlane. -/
def defaultGroundPlane : Plane3D := ⟨0, 1, 0, 0⟩

/-- Point on a ray at parameter t, modelling Ray3D pointAt. -/
def Ray3D.pointAt (r : Ray3D) (t : ℚ) : ℚ × ℚ × ℚ :=
  (r.ox + t * r.dx, r.oy + t * r.dy, r.oz + t * r.dz)

/-- HitTester rayPlaneIntersect from hit_test.cpp: t = -(N.O + d)/(N.D),
rejecting a near-parallel ray (abs (N.D) < 1e-6) and an intersection behind
the origin (t < 0). -/
def rayPlaneIntersect (ray : Ray3D) (plane : Plane3D) : HitTestResult :=
  let nDotD := plane.nx * ray.dx + plane.ny * ray.dy + plane.nz * ray.dz
  if ratAbs nDotD < 1 / 1000000 then
    { hit := false }
  else
    let nDotO := plane.nx * ray.ox + plane.ny * ray.oy + plane.nz * ray.oz
    let t := -(nDotO + plane.d) / nDotD
    if t < 0 then
      { hit := false }
    else
      let p := ray.pointAt t
      { hit := true, x := p.1, y := p.2.1, z := p.2.2, distance := t,
        planeId := -1, confidence := 1 }

/-- HitTester hitTest from hit_test.cpp, with the screen-to-ray conversion
already performed (the ray argument): intersects the stored ground plane when
one is valid. -/
def hitTestRay (hasValidPlane : Bool) (groundPlane : Plane3D) (ray : Ray3D) :
    HitTestResult :=
  if hasValidPlane then rayPlaneIntersect ray groundPlane else { hit := false }

/- ===================== map_point.h ===================== -/

/-- 4x4 pose matrix over exact rationals. -/
abbrev Mat4 := Matrix (Fin 4) (Fin 4) ℚ

/-- 3x3 rotation matrix over exact rationals. -/
abbrev Mat3 := Matrix (Fin 3) (Fin 3) ℚ

/-- MapPoint of map_point.h. -/
structure MapPoint where
  id : Nat
  worldPos : V3
  descriptor : Desc
  observations : List Nat
  matchCount : Nat
  isBad : Bool
deriving DecidableEq, Repr

/-- The MapPoint constructor: matchCount starts at 1, isBad at false,
observations empty. -/
def MapPoint.new (id : Nat) (pos : V3) (desc : Desc) : MapPoint :=
  { id := id, worldPos := pos, descriptor := desc, observations := [],
    matchCount := 1, isBad := false }

/-- MapPoint addObservation: push the keyframe id and bump matchCount. -/
def MapPoint.addObservation (mp : MapPoint) (keyframeId : Nat) : MapPoint :=
  { mp with observations := mp.observations ++ [keyframeId],
            matchCount := mp.matchCount + 1 }

/-- KeyFrame of map_point.h. mapPointIds is parallel to keypoints, -1 meaning
no linked map point. -/
structure KeyFrame where
  id : Nat
  image : Nat
  pose : Mat4
  keypoints : List KeyPt
  descriptors : List Desc
  mapPointIds : List Int

/-- The KeyFrame constructor: mapPointIds sized like keypoints, filled with -1. -/
def KeyFrame.new (id image : Nat) (pose : Mat4) (kps : List KeyPt)
    (descs : List Desc) : KeyFrame :=
  { id := id, image := image, pose := pose, keypoints := kps,
    descriptors := descs, mapPointIds := List.replicate kps.length (-1) }

/- ===================== slam_system.cpp ===================== -/

/-- Extraction result of one frame (ORB detectAndCompute is external; the
frame enters the embedded functions through its extracted features). -/
structure FrameData where
  image : Nat
  keypoints : List KeyPt
  descriptors : List Desc
deriving DecidableEq, Repr

/-- SLAMSystem member state (slam_system.h). mapPoints models the ordered
std map from id to point as an association list in key order. -/
structure SlamState where
  currentPose : Mat4
  mapPoints : List (Nat × MapPoint)
  keyframes : List KeyFrame
  prev : Option FrameData
  initialized : Bool
  tracking : Bool
  frameCount : Nat
  nextMapPointId : Nat
  nextKeyFrameId : Nat

/-- Keypoints of the cached previous frame (empty before any frame). -/
def SlamState.prevKeypoints (s : SlamState) : List KeyPt :=
  (s.prev.map FrameData.keypoints).getD []

/-- Descriptors of the cached previous frame (empty before any frame). -/
def SlamState.prevDescriptors (s : SlamState) : List Desc :=
  (s.prev.map FrameData.descriptors).getD []

/-- Result of findEssentialMat plus recoverPose: rotation, translation and
the recoverPose inlier count. A missing value models an empty essential
matrix. -/
structure RecoverRes where
  R : Mat3
  t : Fin 3 → ℚ
  inliers : Int

/-- Build the 4x4 pose with rotation block R, translation column t and bottom
row 0 0 0 1, as written into pose2 and deltaPose in slam_system.cpp. -/
def mkPoseRT (R : Mat3) (t : Fin 3 → ℚ) : Mat4 :=
  Matrix.of fun i j =>
    if hi : (i : Nat) < 3 then
      if hj : (j : Nat) < 3 then R ⟨i, hi⟩ ⟨j, hj⟩
      else t ⟨i, hi⟩
    else if (j : Nat) = 3 then 1 else 0

/-- Working state of SLAMSystem triangulateNewPoints: the two keyframes
(mutated through their mapPointIds), the map and the id counter. -/
structure TriState where
  kf1 : KeyFrame
  kf2 : KeyFrame
  mapPoints : List (Nat × MapPoint)
  nextMapPointId : Nat

/-- Loop body of SLAMSystem triangulateNewPoints for one match m paired with
the homogeneous triangulatePoints output h: skip when the descriptor distance
exceeds 50, when the left keypoint already links a map point, when
abs (h.w) < 1e-6, or when the dehomogenised z is negative; otherwise create
the map point, record both observations and link both keypoint slots. -/
def triangulateOne (st : TriState) (mh : DMatch × V4) : TriState :=
  let m := mh.1
  let h := mh.2
  if 50 < m.distance then st
  else if 0 ≤ st.kf1.mapPointIds.getD m.queryIdx (-1) then st
  else if ratAbs h.w < 1 / 1000000 then st
  else
    let worldPt : V3 := ⟨h.x / h.w, h.y / h.w, h.z / h.w⟩
    if worldPt.z < 0 then st
    else
      let mp := ((MapPoint.new st.nextMapPointId worldPt
          (st.kf1.descriptors.getD m.queryIdx 0)).addObservation
            st.kf1.id).addObservation st.kf2.id
      { kf1 := { st.kf1 with
          mapPointIds := st.kf1.mapPointIds.set m.queryIdx (Int.ofNat mp.id) },
        kf2 := { st.kf2 with
          mapPointIds := st.kf2.mapPointIds.set m.trainIdx (Int.ofNat mp.id) },
        mapPoints := st.mapPoints ++ [(mp.id, mp)],
        nextMapPointId := st.nextMapPointId + 1 }

/-- SLAMSystem triangulateNewPoints: the cross-check matches between the two
keyframes, each paired with its triangulatePoints result, are supplied by the
environment; the matcher is only invoked when both descriptor sets are
nonempty. -/
def triangulateNewPoints (env : List (DMatch × V4)) (st : TriState) : TriState :=
  let ms := if st.kf1.descriptors ≠ [] ∧ st.kf2.descriptors ≠ [] then env else []
  ms.foldl triangulateOne st

/-- SLAMSystem matchWithMap: collect the non-bad map point ids, let the
matcher (oracle rawMatches) run against the frame descriptors, keep matches
with Hamming distance below 50 and remap queryIdx to the map point id. -/
def matchWithMap (rawMatches : List DMatch) (s : SlamState)
    (descriptors : List Desc) : List DMatch :=
  if s.mapPoints = [] ∨ descriptors = [] then []
  else
    let goodPts := s.mapPoints.filter (fun pr => !pr.2.isBad)
    let mapPointIdxs := goodPts.map (fun pr => pr.1)
    if goodPts = [] then []
    else
      (rawMatches.filter (fun m => m.distance < 50)).map
        (fun m => { m with queryIdx := mapPointIdxs.getD m.queryIdx 0 })

/-- SLAMSystem estimatePosePnP: fewer than 6 points fails; otherwise the
external solvePnPRansac either fails (none) or yields rvec and tvec, whose
Rodrigues rotation and translation are written into currentPose. -/
def estimatePosePnP (pnp : Option (Mat3 × (Fin 3 → ℚ))) (worldPoints : List V3)
    (s : SlamState) : SlamState × Bool :=
  if worldPoints.length < 6 then (s, false)
  else
    match pnp with
    | none => (s, false)
    | some rt => ({ s with currentPose := mkPoseRT rt.1 rt.2 }, true)

/-- Squared Euclidean distance of the translation columns of two poses. The
source compares cv norm (t2 - t1) against 0.1; in exact arithmetic this is
equivalent to comparing the squared distance against 1/100. -/
def translationDistSq (p1 p2 : Mat4) : ℚ :=
  (p2 0 3 - p1 0 3) ^ 2 + (p2 1 3 - p1 1 3) ^ 2 + (p2 2 3 - p1 2 3) ^ 2

/-- SLAMSystem needNewKeyFrame: true when no keyframe exists yet; otherwise
require frameCount to be a multiple of KEYFRAME_INTERVAL (15) and the
translation from the last keyframe to exceed KEYFRAME_TRANSLATION (0.1). -/
def needNewKeyFrame (s : SlamState) : Bool :=
  match s.keyframes.getLast? with
  | none => true
  | some lastKF =>
    if s.frameCount % 15 ≠ 0 then false
    else decide (1 / 100 < translationDistSq lastKF.pose s.currentPose)

/-- Count of matches between keyframe i and the current keyframe whose
distance is below 40 (loop body of SLAMSystem detectLoopClosure); the matcher
output is the environment entry at i and the matcher only runs when both
descriptor sets are nonempty. -/
def loopGoodCount (loopEnv : List (List DMatch)) (kfs : List KeyFrame)
    (cur : KeyFrame) (i : Nat) : Nat :=
  let ms :=
    if (kfs.getD i cur).descriptors ≠ [] ∧ cur.descriptors ≠ [] then
      loopEnv.getD i []
    else []
  (ms.filter (fun m => m.distance < 40)).length

/-- SLAMSystem detectLoopClosure candidate search: scan keyframes with index
below length - 5, keeping the first index whose good-match count both exceeds
the best so far and exceeds 50. Returns (bestMatch, bestMatchCount) with
bestMatch = -1 when no candidate qualified. -/
def loopBest (loopEnv : List (List DMatch)) (kfs : List KeyFrame)
    (cur : KeyFrame) : Int × Nat :=
  (List.range (kfs.length - 5)).foldl
    (fun acc i =>
      let g := loopGoodCount loopEnv kfs cur i
      if acc.2 < g ∧ 50 < g then (Int.ofNat i, g) else acc)
    (-1, 0)

/-- SLAMSystem detectLoopClosure: a loop is reported exactly when the
candidate search found an index. -/
def detectLoopClosure (loopEnv : List (List DMatch)) (kfs : List KeyFrame)
    (cur : KeyFrame) : Bool :=
  0 ≤ (loopBest loopEnv kfs cur).1

/-- SLAMSystem localBundleAdjustment: the hook only logs; it leaves every
pose and map point unchanged. -/
def localBundleAdjustment (s : SlamState) : SlamState := s

/-- Oracle inputs consumed by createKeyFrame: the keyframe-pair matches with
their triangulations, and the per-keyframe matcher outputs used by loop
closure detection. -/
structure KFEnv where
  triMatches : List (DMatch × V4)
  loopMatches : List (List DMatch)

/-- SLAMSystem createKeyFrame: snapshot the frame with the previous features
and the current pose, triangulate against the previous keyframe when one
exists, and when the keyframe count exceeds 10 run loop closure detection
(invoking the bundle adjustment hook on a hit). The Bool records whether the
loop closure check ran. -/
def createKeyFrame (env : KFEnv) (s : SlamState) (image : Nat) :
    SlamState × Bool :=
  let kf := KeyFrame.new s.nextKeyFrameId image s.currentPose s.prevKeypoints
    s.prevDescriptors
  let kfs1 := s.keyframes ++ [kf]
  let n := kfs1.length
  let s1 := { s with keyframes := kfs1, nextKeyFrameId := s.nextKeyFrameId + 1 }
  let s2 : SlamState :=
    if 2 ≤ n then
      let st0 : TriState :=
        { kf1 := kfs1.getD (n - 2) kf, kf2 := kf,
          mapPoints := s1.mapPoints, nextMapPointId := s1.nextMapPointId }
      let st1 := triangulateNewPoints env.triMatches st0
      { s1 with keyframes := (kfs1.set (n - 2) st1.kf1).set (n - 1) st1.kf2,
                mapPoints := st1.mapPoints, nextMapPointId := st1.nextMapPointId }
    else s1
  if 10 < s2.keyframes.length then
    if detectLoopClosure env.loopMatches s2.keyframes kf then
      (localBundleAdjustment s2, true)
    else (s2, true)
  else (s2, false)

/-- Oracle inputs consumed by one track call: matcher output against the map
descriptor batch, fallback matcher output against the previous frame, the
fallback essential matrix with recoverPose, the PnP result, and the
createKeyFrame oracles. -/
structure TrackEnv where
  mapMatches : List DMatch
  frameMatches : List DMatch
  frameEssential : Option RecoverRes
  pnp : Option (Mat3 × (Fin 3 → ℚ))
  kfEnv : KFEnv

/-- Fallback matcher output of track: the matcher against the previous frame
runs only when the cached descriptors are nonempty. -/
def trackFrameMatches (env : TrackEnv) (s : SlamState) : List DMatch :=
  if s.prevDescriptors ≠ [] then env.frameMatches else []

/-- The worldPoints/imagePoints vector of track: positions of the non-bad map
points found among the map matches, paired with the matched keypoint. -/
def trackWorldPoints (ms : List DMatch) (s : SlamState) (f : FrameData) :
    List (V3 × KeyPt) :=
  ms.filterMap (fun m =>
    match s.mapPoints.lookup m.queryIdx with
    | some mp =>
      if !mp.isBad then
        some (mp.worldPos, f.keypoints.getD m.trainIdx (⟨0, 0⟩ : KeyPt))
      else none
    | none => none)

/-- SLAMSystem track. The plane detector and image target tracker invocations
read copies of the map and mutate only their own result lists (embedded
separately below); they do not touch any of the state modelled here. -/
def track (env : TrackEnv) (s : SlamState) (f : FrameData) : SlamState × Bool :=
  if f.keypoints.length < 20 then
    ({ s with tracking := false }, false)
  else
    let ms := matchWithMap env.mapMatches s f.descriptors
    let s1 : Option SlamState :=
      if ms.length < 20 then
        if (trackFrameMatches env s).length < 20 then none
        else
          some <|
            match env.frameEssential with
            | none => s
            | some r =>
              { s with currentPose := s.currentPose * mkPoseRT r.R r.t,
                       tracking := true }
      else
        if 6 ≤ (trackWorldPoints ms s f).length then
          let r := estimatePosePnP env.pnp ((trackWorldPoints ms s f).map Prod.fst) s
          some { r.1 with tracking := r.2 }
        else some s
    match s1 with
    | none => ({ s with tracking := false }, false)
    | some s2 =>
      let s3 :=
        if s2.tracking && needNewKeyFrame s2 then
          (createKeyFrame env.kfEnv s2 f.image).1
        else s2
      let s4 := { s3 with prev := some f }
      (s4, s4.tracking)

/-- Oracle inputs consumed by one initialize call: matcher output between the
cached and the new frame, essential matrix with recoverPose, and the
triangulation results for the initial map. -/
structure InitEnv where
  matchList : List DMatch
  essential : Option RecoverRes
  triMatches : List (DMatch × V4)

/-- Matcher output between the cached previous descriptors and the new frame
descriptors; the matcher only runs when both are nonempty. -/
def initRawMatches (env : InitEnv) (s : SlamState) (f : FrameData) :
    List DMatch :=
  if s.prevDescriptors ≠ [] ∧ f.descriptors ≠ [] then env.matchList else []

/-- Good-match filter of SLAMSystem initialize: keep matches with distance at
most max (2 * minDist) 30, minDist starting from 100. -/
def goodInitMatches (ms : List DMatch) : List DMatch :=
  let minDist := ms.foldl (fun a m => if m.distance < a then m.distance else a) 100
  ms.filter (fun m => m.distance ≤ max (2 * minDist) 30)

/-- SLAMSystem two-view initialization (the private member that processFrame
dispatches to while uninitialized). First frame with at least MIN_INIT_MATCHES (100)
features is cached. For the second frame: require 100 raw matches (caching
the new frame on failure), then 50 good matches, a nonempty essential matrix
and at least 30 recoverPose inliers (without caching on these failures); on
success create the two keyframes, triangulate the initial map, and enter
Tracking. -/
def twoViewInit (env : InitEnv) (s : SlamState) (f : FrameData) :
    SlamState × Bool :=
  if f.keypoints.length < 100 then (s, false)
  else
    match s.prev with
    | none => ({ s with prev := some f }, true)
    | some p =>
      let rawMs := initRawMatches env s f
      if rawMs.length < 100 then ({ s with prev := some f }, false)
      else
        let goodMatches := goodInitMatches rawMs
        if goodMatches.length < 50 then (s, false)
        else
          match env.essential with
          | none => (s, false)
          | some r =>
            if r.inliers < 30 then (s, false)
            else
              let kf1 := KeyFrame.new s.nextKeyFrameId p.image (1 : Mat4)
                p.keypoints p.descriptors
              let kf2 := KeyFrame.new (s.nextKeyFrameId + 1) f.image
                (mkPoseRT r.R r.t) f.keypoints f.descriptors
              let st1 := triangulateNewPoints env.triMatches
                { kf1 := kf1, kf2 := kf2, mapPoints := s.mapPoints,
                  nextMapPointId := s.nextMapPointId }
              ({ s with
                  currentPose := mkPoseRT r.R r.t,
                  mapPoints := st1.mapPoints,
                  keyframes := s.keyframes ++ [st1.kf1, st1.kf2],
                  prev := some f,
                  initialized := true,
                  tracking := true,
                  nextMapPointId := st1.nextMapPointId,
                  nextKeyFrameId := s.nextKeyFrameId + 2 }, true)

/-- Oracle inputs for one processFrame call. -/
structure FrameEnv where
  initEnv : InitEnv
  trackEnv : TrackEnv

/-- SLAMSystem processFrame: bump the frame counter, then dispatch on the
initialized flag. -/
def processFrame (env : FrameEnv) (s : SlamState) (f : FrameData) :
    SlamState × Bool :=
  let s0 := { s with frameCount := s.frameCount + 1 }
  if s0.initialized then track env.trackEnv s0 f else twoViewInit env.initEnv s0 f

/- ============ getViewMatrix and the bindings serialisation ============ -/

/-- SLAMSystem getViewMatrix: the matrix inverse of the current camera pose
(cv Mat inv, an external primitive with exact inverse semantics). -/
noncomputable def getViewMatrix (currentPose : Mat4) : Mat4 := currentPose⁻¹

/-- matToArray of bindings.cpp: the outer loop runs over rows, the inner over
columns, so the flat array is the row-major serialisation. -/
def matToArray (m : Mat4) : List ℚ :=
  [m 0 0, m 0 1, m 0 2, m 0 3,
   m 1 0, m 1 1, m 1 2, m 1 3,
   m 2 0, m 2 1, m 2 2, m 2 3,
   m 3 0, m 3 1, m 3 2, m 3 3]

/-- Read a flat 16-element array as a row-major 4x4 matrix. -/
def fromRowMajor (a : List ℚ) : Mat4 :=
  Matrix.of fun i j => a.getD (4 * (i : Nat) + (j : Nat)) 0

/-- Read a flat 16-element array as a column-major 4x4 matrix. -/
def fromColMajor (a : List ℚ) : Mat4 :=
  Matrix.of fun i j => a.getD (4 * (j : Nat) + (i : Nat)) 0

/- ===================== plane_detector.cpp ===================== -/

/-- Real 3-vector for the plane detector, whose source normalises with a
square root. -/
structure V3R where
  x : ℝ
  y : ℝ
  z : ℝ

/-- Zero vector. -/
def V3R.zero : V3R := ⟨0, 0, 0⟩

/-- Componentwise sum. -/
noncomputable def V3R.add (u v : V3R) : V3R := ⟨u.x + v.x, u.y + v.y, u.z + v.z⟩

/-- Componentwise difference. -/
noncomputable def V3R.sub (u v : V3R) : V3R := ⟨u.x - v.x, u.y - v.y, u.z - v.z⟩

/-- Componentwise negation. -/
noncomputable def V3R.neg (v : V3R) : V3R := ⟨-v.x, -v.y, -v.z⟩

/-- Scalar multiple. -/
noncomputable def V3R.smul (a : ℝ) (v : V3R) : V3R := ⟨a * v.x, a * v.y, a * v.z⟩

/-- Dot product. -/
noncomputable def V3R.dot (u v : V3R) : ℝ := u.x * v.x + u.y * v.y + u.z * v.z

/-- Cross product, as cv Point3f cross. -/
noncomputable def V3R.cross (u v : V3R) : V3R :=
  ⟨u.y * v.z - u.z * v.y, u.z * v.x - u.x * v.z, u.x * v.y - u.y * v.x⟩

/-- Squared Euclidean norm. -/
noncomputable def V3R.normSq (v : V3R) : ℝ := v.x ^ 2 + v.y ^ 2 + v.z ^ 2

/-- Euclidean norm, as cv norm. -/
noncomputable def V3R.norm (v : V3R) : ℝ := Real.sqrt v.normSq

/-- DetectedPlane of plane_detector.h. -/
structure DetectedPlane where
  id : Int
  center : V3R
  normal : V3R
  width : ℝ
  height : ℝ
  corners : List V3R
  isHorizontal : Bool
  confidence : ℝ

/-- Best candidate tracked across the RANSAC iterations of fitPlaneRANSAC. -/
structure RansacBest where
  count : Nat
  normal : V3R
  d : ℝ
  inliers : List Nat

/-- One RANSAC iteration of PlaneDetector fitPlaneRANSAC, consuming one
random index triple: duplicate draws are rejected, the cross-product normal
is rejected below norm 1e-6 and normalised otherwise, and the candidate with
the strictly larger inlier count (threshold 0.02) is kept. -/
noncomputable def ransacIter (points : List V3R) (acc : RansacBest)
    (tr : Nat × Nat × Nat) : RansacBest :=
  if tr.1 = tr.2.1 ∨ tr.2.1 = tr.2.2 ∨ tr.1 = tr.2.2 then acc
  else
    let p1 := points.getD tr.1 V3R.zero
    let p2 := points.getD tr.2.1 V3R.zero
    let p3 := points.getD tr.2.2 V3R.zero
    let n0 := V3R.cross (V3R.sub p2 p1) (V3R.sub p3 p1)
    let nrm := n0.norm
    if nrm < 1 / 1000000 then acc
    else
      let n1 := V3R.smul (1 / nrm) n0
      let d := -(V3R.dot n1 p1)
      let cur := (List.range points.length).filter
        (fun i => decide (|V3R.dot n1 (points.getD i V3R.zero) + d| < 1 / 50))
      if acc.count < cur.length then ⟨cur.length, n1, d, cur⟩ else acc

/-- PlaneDetector fitPlaneRANSAC: run the iterations on the supplied random
index triples, require at least MIN_PLANE_POINTS (50) inliers, and flip the
winning normal (and d) so its y component is nonnegative. -/
noncomputable def fitPlaneRANSAC (points : List V3R)
    (samples : List (Nat × Nat × Nat)) : Option (V3R × ℝ × List Nat) :=
  if points.length < 3 then none
  else
    let best := samples.foldl (ransacIter points) ⟨0, V3R.zero, 0, []⟩
    if best.count < 50 then none
    else if best.normal.y < 0 then some (best.normal.neg, -best.d, best.inliers)
    else some (best.normal, best.d, best.inliers)

/-- PlaneDetector isPlaneHorizontal: absolute dot with the up axis above
HORIZONTAL_THRESHOLD (0.9). -/
noncomputable def isPlaneHorizontal (normal : V3R) : Bool :=
  decide ((9 : ℝ) / 10 < |V3R.dot normal ⟨0, 1, 0⟩|)

/-- Largest finite single-precision float, the initial bound of the
computePlaneBounds min/max scan. -/
def fltMax : ℝ := 2 ^ 128 - 2 ^ 104

/-- PlaneDetector computePlaneBounds: centroid of the inliers, plane-local
basis (right from up x normal with fallback (1,0,0) below norm 0.1, forward
from normal x right), axis-aligned projected extents and the four corners. -/
noncomputable def computePlaneBounds (inlierPoints : List V3R) (normal : V3R)
    (plane : DetectedPlane) : DetectedPlane :=
  if inlierPoints.isEmpty then plane
  else
    let center := V3R.smul ((inlierPoints.length : ℝ)⁻¹)
      (inlierPoints.foldl V3R.add V3R.zero)
    let up : V3R := ⟨0, 1, 0⟩
    let right0 := V3R.cross up normal
    let right1 := if right0.norm < 1 / 10 then (⟨1, 0, 0⟩ : V3R) else right0
    let right := V3R.smul right1.norm⁻¹ right1
    let forward0 := V3R.cross normal right
    let forward := V3R.smul forward0.norm⁻¹ forward0
    let xs := inlierPoints.map (fun p => V3R.dot (V3R.sub p center) right)
    let zs := inlierPoints.map (fun p => V3R.dot (V3R.sub p center) forward)
    let minX := xs.foldl min fltMax
    let maxX := xs.foldl max (-fltMax)
    let minZ := zs.foldl min fltMax
    let maxZ := zs.foldl max (-fltMax)
    { plane with
      center := center,
      width := maxX - minX,
      height := maxZ - minZ,
      corners :=
        [V3R.add center (V3R.add (V3R.smul minX right) (V3R.smul minZ forward)),
         V3R.add center (V3R.add (V3R.smul maxX right) (V3R.smul minZ forward)),
         V3R.add center (V3R.add (V3R.smul maxX right) (V3R.smul maxZ forward)),
         V3R.add center (V3R.add (V3R.smul minX right) (V3R.smul maxZ forward))] }

/-- Merge condition of PlaneDetector findMergeablePlane: same horizontal
class, absolute normal dot at least 0.95 and center distance below
MERGE_DISTANCE (0.1). -/
def mergeCond (q newPlane : DetectedPlane) : Prop :=
  q.isHorizontal = newPlane.isHorizontal ∧
  95 / 100 ≤ |V3R.dot q.normal newPlane.normal| ∧
  V3R.norm (V3R.sub q.center newPlane.center) < 1 / 10

open Classical in
/-- Scan of PlaneDetector findMergeablePlane, carrying the current index. -/
noncomputable def findMergeableAux (newPlane : DetectedPlane) :
    List DetectedPlane → Nat → Option Nat
  | [], _ => none
  | q :: rest, i =>
    if mergeCond q newPlane then some i
    else findMergeableAux newPlane rest (i + 1)

/-- PlaneDetector findMergeablePlane: index of the first stored plane
satisfying the merge condition. -/
noncomputable def findMergeablePlane (planes : List DetectedPlane)
    (newPlane : DetectedPlane) : Option Nat :=
  findMergeableAux newPlane planes 0

/-- PlaneDetector mergePlanes: midpoint center, elementwise max extents,
confidence bumped by half the new confidence and clamped to 1; id, normal,
corners and class of the existing plane are kept. -/
noncomputable def mergePlanes (existing newPlane : DetectedPlane) :
    DetectedPlane :=
  { existing with
    center := V3R.smul (1 / 2) (V3R.add existing.center newPlane.center),
    width := max existing.width newPlane.width,
    height := max existing.height newPlane.height,
    confidence := min 1 (existing.confidence + newPlane.confidence * (1 / 2)) }

/-- PlaneDetector result-list state: stored planes and the id counter. -/
structure PDState where
  planes : List DetectedPlane
  nextPlaneId : Int

/-- Default plane value used for list indexing (the source never reads an
out-of-range index). -/
noncomputable def defaultPlane : DetectedPlane :=
  ⟨0, V3R.zero, V3R.zero, 0, 0, [], false, 0⟩

/-- Remove the elements at the given (distinct, ascending) index list: the
effect of the descending-order erase loop at the end of detectPlanes. -/
def removeIndices {α : Type} (xs : List α) (idxs : List Nat) : List α :=
  (xs.enum.filter (fun p => !idxs.contains p.1)).map Prod.snd

/-- One iteration of the plane extraction loop of PlaneDetector detectPlanes:
stop when fewer than MIN_PLANE_POINTS remain or the RANSAC fit fails;
otherwise build the plane (id from the counter, horizontal class, confidence
inliers over the original point count, fitted bounds), merge it into an
existing plane (rolling the id counter back) or append it, and drop the
inlier points from the remaining set. -/
noncomputable def detectOnePlane (samples : List (Nat × Nat × Nat))
    (origCount : Nat) (remaining : List V3R) (s : PDState) :
    Option (List V3R × PDState) :=
  if remaining.length < 50 then none
  else
    match fitPlaneRANSAC remaining samples with
    | none => none
    | some (normal, _, inliers) =>
      if inliers.length < 50 then none
      else
        let inlierPoints := inliers.map (fun idx => remaining.getD idx V3R.zero)
        let plane0 : DetectedPlane :=
          { id := s.nextPlaneId, center := V3R.zero, normal := normal,
            width := 0, height := 0, corners := [],
            isHorizontal := isPlaneHorizontal normal,
            confidence := (inliers.length : ℝ) / (origCount : ℝ) }
        let plane := computePlaneBounds inlierPoints normal plane0
        let s1 : PDState :=
          match findMergeablePlane s.planes plane with
          | some i =>
            { planes := s.planes.set i (mergePlanes (s.planes.getD i defaultPlane) plane),
              nextPlaneId := s.nextPlaneId }
          | none =>
            { planes := s.planes ++ [plane], nextPlaneId := s.nextPlaneId + 1 }
        some (removeIndices remaining inliers, s1)

/-- The bounded plane extraction loop (at most three planes). -/
noncomputable def detectPlanesLoop : Nat → List (List (Nat × Nat × Nat)) →
    Nat → List V3R → PDState → PDState
  | 0, _, _, _, s => s
  | Nat.succ k, envs, origCount, remaining, s =>
    match detectOnePlane (envs.headD []) origCount remaining s with
    | none => s
    | some r => detectPlanesLoop k envs.tail origCount r.1 r.2

/-- PlaneDetector detectPlanes: nothing happens below MIN_PLANE_POINTS (50)
input points; otherwise run up to three extraction iterations, each consuming
its own list of random sample triples. -/
noncomputable def detectPlanes (env : List (List (Nat × Nat × Nat)))
    (pts : List V3R) (s : PDState) : PDState :=
  if pts.length < 50 then s else detectPlanesLoop 3 env pts.length pts s

/-- Normal invariant of a stored plane: exactly unit squared norm and a
nonnegative y component. -/
def PlaneNormalOk (p : DetectedPlane) : Prop :=
  p.normal.normSq = 1 ∧ 0 ≤ p.normal.y

/-- States of the plane detector reachable from the empty constructor state
through any sequence of detectPlanes calls (arbitrary map points and random
samples each time). -/
inductive PDReachable : PDState → Prop
  | init : PDReachable ⟨[], 0⟩
  | step (env : List (List (Nat × Nat × Nat))) (pts : List V3R) (s : PDState) :
      PDReachable s → PDReachable (detectPlanes env pts s)

/- ===================== image_target.cpp ===================== -/

/-- Registered target of image_target.h (name as an opaque token, template
dimensions in pixels). -/
structure ImageTarget where
  id : Nat
  name : Nat
  cols : ℚ
  rows : ℚ
  keypoints : List KeyPt
  descriptors : List Desc
  widthMeters : ℚ
  heightMeters : ℚ

/-- Per-frame detection result of image_target.h. -/
structure DetectedTarget where
  targetId : Nat
  name : Nat
  pose : Mat4
  corners : List KeyPt
  confidence : ℚ
  isTracking : Bool

/-- Oracle inputs for one target inside detectTargets: the knnMatch rows, the
findHomography output (matrix with inlier mask, none when empty) and the
solvePnPRansac output (Rodrigues rotation and tvec, none on failure). -/
structure TargetEnv where
  knn : List (List DMatch)
  homography : Option (Mat3 × List Bool)
  pnp : Option (Mat3 × (Fin 3 → ℚ))

/-- Lowe ratio test of detectTargets: keep the best of each knn row when at
least two neighbours exist and best < 0.75 * second. -/
def ratioGoodMatches (knn : List (List DMatch)) : List DMatch :=
  knn.filterMap (fun row =>
    match row with
    | a :: b :: _ => if a.distance < 3 / 4 * b.distance then some a else none
    | _ => none)

/-- Apply a homography to an image point (perspectiveTransform semantics). -/
def applyH (H : Mat3) (p : KeyPt) : KeyPt :=
  let X := H 0 0 * p.x + H 0 1 * p.y + H 0 2
  let Y := H 1 0 * p.x + H 1 1 * p.y + H 1 2
  let W := H 2 0 * p.x + H 2 1 * p.y + H 2 2
  ⟨X / W, Y / W⟩

/-- Orientation flags of cv isContourConvex: bit 1 for a positive cross
product of consecutive edges, bit 2 for a negative one. -/
def convexFlags (ps : List KeyPt) : Nat :=
  let n := ps.length
  (List.range n).foldl
    (fun fl i =>
      let p0 := ps.getD (i % n) (⟨0, 0⟩ : KeyPt)
      let p1 := ps.getD ((i + 1) % n) (⟨0, 0⟩ : KeyPt)
      let p2 := ps.getD ((i + 2) % n) (⟨0, 0⟩ : KeyPt)
      let cr := (p1.x - p0.x) * (p2.y - p1.y) - (p1.y - p0.y) * (p2.x - p1.x)
      if 0 < cr then fl ||| 1 else if cr < 0 then fl ||| 2 else fl)
    0

/-- cv isContourConvex: convex when the consecutive cross products never take
both signs. -/
def isContourConvex (ps : List KeyPt) : Bool := convexFlags ps ≠ 3

/-- ImageTargetTracker computePose: the external solvePnPRansac either fails
or yields rvec and tvec; on success the 4x4 pose is composed from the
Rodrigues rotation and the translation. -/
def computePoseT (pnp : Option (Mat3 × (Fin 3 → ℚ))) : Option Mat4 :=
  match pnp with
  | none => none
  | some rt => some (mkPoseRT rt.1 rt.2)

/-- Per-target body of ImageTargetTracker detectTargets: ratio-test matching
(at least MIN_MATCHES = 15 good matches), homography (nonempty, at least 15
mask inliers), convexity of the projected template corners, and PnP; on
success the confidence is inliers over good matches. -/
def detectOneTarget (env : TargetEnv) (target : ImageTarget) :
    Option DetectedTarget :=
  if target.descriptors.isEmpty then none
  else
    let good := ratioGoodMatches env.knn
    if good.length < 15 then none
    else
      match env.homography with
      | none => none
      | some hm =>
        let inliers := (hm.2.filter id).length
        if inliers < 15 then none
        else
          let targetCorners : List KeyPt :=
            [⟨0, 0⟩, ⟨target.cols, 0⟩, ⟨target.cols, target.rows⟩,
             ⟨0, target.rows⟩]
          let projected := targetCorners.map (applyH hm.1)
          if !isContourConvex projected then none
          else
            match computePoseT env.pnp with
            | none => none
            | some pose =>
              some { targetId := target.id, name := target.name, pose := pose,
                     corners := projected,
                     confidence := (inliers : ℚ) / (good.length : ℚ),
                     isTracking := true }

/-- ImageTargetTracker detectTargets: nothing is produced with no registered
target or fewer than 15 frame keypoints; otherwise each target is processed
independently with its own oracle inputs. -/
def detectTargets (envs : List TargetEnv) (targets : List ImageTarget)
    (frameKeypoints : List KeyPt) : List DetectedTarget :=
  if targets.isEmpty then []
  else if frameKeypoints.length < 15 then []
  else (targets.zip envs).filterMap (fun te => detectOneTarget te.2 te.1)

/-- Camera pose used in the C9 counterexample: identity rotation with
translation (1, 0, 0). -/
def c9Pose : Mat4 := !![1, 0, 0, 1; 0, 1, 0, 0; 0, 0, 1, 0; 0, 0, 0, 1]

/-- The matrix inverse of c9Pose (translation by -1). -/
def c9PoseInv : Mat4 := !![1, 0, 0, -1; 0, 1, 0, 0; 0, 0, 1, 0; 0, 0, 0, 1]

/-- Zero-argument keyframe used for concrete instantiation. -/
def kfZero : KeyFrame := KeyFrame.new 0 0 1 [] []

/-- The freshly constructed SLAMSystem state: identity pose, empty map,
uninitialized, nothing tracking (slam_system.cpp constructor). -/
def slamZero : SlamState :=
  { currentPose := 1, mapPoints := [], keyframes := [], prev := none,
    initialized := false, tracking := false, frameCount := 0,
    nextMapPointId := 0, nextKeyFrameId := 0 }

/-- Oracle environment with no matcher output at all. -/
def envZero : FrameEnv :=
  { initEnv := { matchList := [], essential := none, triMatches := [] },
    trackEnv := { mapMatches := [], frameMatches := [], frameEssential := none,
                  pnp := none, kfEnv := { triMatches := [], loopMatches := [] } } }

/-- Tracking-state instance with one stored keyframe (C2 witness). -/
def c2State : SlamState :=
  { slamZero with initialized := true, keyframes := [kfZero] }

/-- Waiting-second-view instance: a first frame is cached (C1 witness). -/
def c1State : SlamState := { slamZero with prev := some ⟨0, [], []⟩ }

/-- A frame carrying 100 keypoints and no descriptors (C1 witness). -/
def c1Frame : FrameData := ⟨1, List.replicate 100 (⟨0, 0⟩ : KeyPt), []⟩

/-- Cached first frame of the C1 counterexample (image id 5). -/
def c1cPrev : FrameData :=
  ⟨5, List.replicate 100 (⟨0, 0⟩ : KeyPt), List.replicate 100 (0 : Desc)⟩

/-- Second frame of the C1 counterexample (image id 6). -/
def c1cFrame : FrameData :=
  ⟨6, List.replicate 100 (⟨0, 0⟩ : KeyPt), List.replicate 100 (1 : Desc)⟩

/-- Waiting-second-view state of the C1 counterexample. -/
def c1cState : SlamState := { slamZero with prev := some c1cPrev }

/-- Oracle environment of the C1 counterexample: 100 raw matches but an
empty essential matrix. -/
def c1cEnv : InitEnv :=
  { matchList := List.replicate 100 (⟨0, 0, 30⟩ : DMatch), essential := none,
    triMatches := [] }

/-- Registered target of the C7 witness: a 2x2-pixel template. -/
def c7Target : ImageTarget :=
  { id := 3, name := 0, cols := 2, rows := 2,
    keypoints := List.replicate 20 (⟨0, 0⟩ : KeyPt),
    descriptors := List.replicate 20 (0 : Desc),
    widthMeters := 1, heightMeters := 1 }

/-- Oracle environment of the C7 witness: 15 ratio-test-passing knn rows, an
identity homography with an all-inlier mask, and a successful PnP. -/
def c7Env : TargetEnv :=
  { knn := List.replicate 15 [(⟨0, 0, 1⟩ : DMatch), ⟨0, 1, 10⟩],
    homography := some (!![1, 0, 0; 0, 1, 0; 0, 0, 1], List.replicate 15 true),
    pnp := some (!![1, 0, 0; 0, 1, 0; 0, 0, 1], fun _ => 0) }

/- ===================== theorems ===================== -/

/-- createKeyFrame does not change the tracking flag. -/
theorem createKeyFrame_tracking (env : KFEnv) (s : SlamState) (img : Nat) :
    (createKeyFrame env s img).1.tracking = s.tracking := by
  simp only [createKeyFrame, localBundleAdjustment]
  split_ifs <;> rfl

/-- createKeyFrame does not change the current pose. -/
theorem createKeyFrame_currentPose (env : KFEnv) (s : SlamState) (img : Nat) :
    (createKeyFrame env s img).1.currentPose = s.currentPose := by
  simp only [createKeyFrame, localBundleAdjustment]
  split_ifs <;> rfl

/-- createKeyFrame inserts exactly one keyframe. -/
theorem createKeyFrame_keyframes_length (env : KFEnv) (s : SlamState) (img : Nat) :
    (createKeyFrame env s img).1.keyframes.length = s.keyframes.length + 1 := by
  simp only [createKeyFrame, localBundleAdjustment]
  split_ifs <;> simp [List.length_set, List.length_append]

/-- estimatePosePnP touches only the current pose. -/
theorem estimatePosePnP_shape (pnp : Option (Mat3 × (Fin 3 → ℚ)))
    (W : List V3) (s : SlamState) :
    (estimatePosePnP pnp W s).1.keyframes = s.keyframes ∧
    (estimatePosePnP pnp W s).1.mapPoints = s.mapPoints ∧
    (estimatePosePnP pnp W s).1.frameCount = s.frameCount ∧
    (estimatePosePnP pnp W s).1.tracking = s.tracking ∧
    (estimatePosePnP pnp W s).1.prev = s.prev := by
  simp only [estimatePosePnP]
  split_ifs
  · exact ⟨rfl, rfl, rfl, rfl, rfl⟩
  · cases pnp with
    | none => exact ⟨rfl, rfl, rfl, rfl, rfl⟩
    | some rt => exact ⟨rfl, rfl, rfl, rfl, rfl⟩

/-- Shape of one track call: either an early failure that only clears the
tracking flag, or a pose-estimation outcome s2 (map, keyframes, cache and
frame counter untouched) followed by the keyframe decision and the
previous-frame cache update. -/
theorem track_shape (env : TrackEnv) (s : SlamState) (f : FrameData) :
    track env s f = ({ s with tracking := false }, false) ∨
    ∃ s2 : SlamState,
      s2.keyframes = s.keyframes ∧ s2.mapPoints = s.mapPoints ∧
      s2.frameCount = s.frameCount ∧ s2.prev = s.prev ∧
      track env s f =
        ({ (if s2.tracking && needNewKeyFrame s2 then
              (createKeyFrame env.kfEnv s2 f.image).1 else s2) with
            prev := some f },
         (if s2.tracking && needNewKeyFrame s2 then
              (createKeyFrame env.kfEnv s2 f.image).1 else s2).tracking) := by
  by_cases h1 : f.keypoints.length < 20
  · exact Or.inl (by simp only [track, if_pos h1])
  · by_cases h2 : (matchWithMap env.mapMatches s f.descriptors).length < 20
    · by_cases h3 : (trackFrameMatches env s).length < 20
      · exact Or.inl (by simp only [track, if_neg h1, if_pos h2, if_pos h3])
      · cases hE : env.frameEssential with
        | none =>
          refine Or.inr ⟨s, rfl, rfl, rfl, rfl, ?_⟩
          simp only [track, if_neg h1, if_pos h2, if_neg h3, hE]
        | some r =>
          refine Or.inr ⟨{ s with
            currentPose := s.currentPose * mkPoseRT r.R r.t, tracking := true },
            rfl, rfl, rfl, rfl, ?_⟩
          simp only [track, if_neg h1, if_pos h2, if_neg h3, hE]
    · by_cases h4 : 6 ≤
        (trackWorldPoints (matchWithMap env.mapMatches s f.descriptors) s f).length
      · refine Or.inr ⟨{ (estimatePosePnP env.pnp
            ((trackWorldPoints (matchWithMap env.mapMatches s f.descriptors) s f).map
              Prod.fst) s).1 with
            tracking := (estimatePosePnP env.pnp
            ((trackWorldPoints (matchWithMap env.mapMatches s f.descriptors) s f).map
              Prod.fst) s).2 }, ?_, ?_, ?_, ?_, ?_⟩
        · exact (estimatePosePnP_shape _ _ _).1
        · exact (estimatePosePnP_shape _ _ _).2.1
        · exact (estimatePosePnP_shape _ _ _).2.2.1
        · exact (estimatePosePnP_shape _ _ _).2.2.2.2
        · simp only [track, if_neg h1, if_neg h2, if_pos h4]
      · refine Or.inr ⟨s, rfl, rfl, rfl, rfl, ?_⟩
        simp only [track, if_neg h1, if_neg h2, if_neg h4]

/-- needNewKeyFrame with a stored last keyframe: multiple of
KEYFRAME_INTERVAL and squared translation above (0.1)^2. -/
theorem needNewKeyFrame_iff (s : SlamState) (lastKF : KeyFrame)
    (hlast : s.keyframes.getLast? = some lastKF) :
    needNewKeyFrame s = true ↔
      (s.frameCount % 15 = 0 ∧
       1 / 100 < translationDistSq lastKF.pose s.currentPose) := by
  simp only [needNewKeyFrame, hlast]
  split_ifs with h
  · exact ⟨fun hf => absurd hf (by simp), fun hc => absurd hc.1 h⟩
  · rw [decide_eq_true_eq]
    exact ⟨fun hd => ⟨not_not.mp h, hd⟩, fun hc => hc.2⟩

/-- The squared translation distance is nonnegative. -/
theorem translationDistSq_nonneg (p1 p2 : Mat4) : 0 ≤ translationDistSq p1 p2 := by
  unfold translationDistSq
  positivity

/-- The squared-distance gate of needNewKeyFrame is the Euclidean distance
gate of the source: distSq above (0.1)^2 iff the real square root of distSq
exceeds 0.1. -/
theorem distSq_sqrt_gate (q : ℚ) :
    (1 / 100 < q) ↔ (1 : ℝ) / 10 < Real.sqrt ((q : ℚ) : ℝ) := by
  rw [Real.lt_sqrt (by norm_num)]
  have h : ((1 : ℝ) / 10) ^ 2 = ((1 / 100 : ℚ) : ℝ) := by norm_num
  rw [h, Rat.cast_lt]

/-- Full characterisation of a twoViewInit call in the waiting-second-view
state with enough features: the failure conditions, the untouched state on
failure, and the cache update policy (only the raw-match failure caches the
new frame). -/
theorem twoViewInit_spec (env : InitEnv) (s : SlamState) (f : FrameData)
    (p : FrameData) (hprev : s.prev = some p) (hkp : 100 ≤ f.keypoints.length) :
    ((twoViewInit env s f).2 = false ↔
      ((initRawMatches env s f).length < 100 ∨
       (goodInitMatches (initRawMatches env s f)).length < 50 ∨
       (∀ r, env.essential = some r → r.inliers < 30))) ∧
    ((twoViewInit env s f).2 = false →
      (twoViewInit env s f).1.initialized = s.initialized ∧
      (twoViewInit env s f).1.tracking = s.tracking ∧
      (twoViewInit env s f).1.keyframes = s.keyframes ∧
      (twoViewInit env s f).1.mapPoints = s.mapPoints ∧
      (twoViewInit env s f).1.prev =
        (if (initRawMatches env s f).length < 100 then some f else s.prev)) := by
  have h1 : ¬ f.keypoints.length < 100 := not_lt.mpr hkp
  by_cases h2 : (initRawMatches env s f).length < 100
  · have heq : twoViewInit env s f = ({ s with prev := some f }, false) := by
      simp only [twoViewInit, if_neg h1, hprev, if_pos h2]
    rw [heq]
    exact ⟨⟨fun _ => Or.inl h2, fun _ => rfl⟩,
      fun _ => ⟨rfl, rfl, rfl, rfl, by rw [if_pos h2]⟩⟩
  · by_cases h3 : (goodInitMatches (initRawMatches env s f)).length < 50
    · have heq : twoViewInit env s f = (s, false) := by
        simp only [twoViewInit, if_neg h1, hprev, if_neg h2, if_pos h3]
      rw [heq]
      exact ⟨⟨fun _ => Or.inr (Or.inl h3), fun _ => rfl⟩,
        fun _ => ⟨rfl, rfl, rfl, rfl, by rw [if_neg h2]⟩⟩
    · cases hE : env.essential with
      | none =>
        have heq : twoViewInit env s f = (s, false) := by
          simp only [twoViewInit, if_neg h1, hprev, if_neg h2, if_neg h3, hE]
        rw [heq]
        refine ⟨⟨fun _ => Or.inr (Or.inr fun r hr => ?_), fun _ => rfl⟩,
          fun _ => ⟨rfl, rfl, rfl, rfl, by rw [if_neg h2]⟩⟩
        cases hr
      | some r0 =>
        by_cases h4 : r0.inliers < 30
        · have heq : twoViewInit env s f = (s, false) := by
            simp only [twoViewInit, if_neg h1, hprev, if_neg h2, if_neg h3, hE,
              if_pos h4]
          rw [heq]
          refine ⟨⟨fun _ => Or.inr (Or.inr fun r hr => ?_), fun _ => rfl⟩,
            fun _ => ⟨rfl, rfl, rfl, rfl, by rw [if_neg h2]⟩⟩
          cases hr
          exact h4
        · have htrue : (twoViewInit env s f).2 = true := by
            simp only [twoViewInit, if_neg h1, hprev, if_neg h2, if_neg h3, hE,
              if_neg h4]
          constructor
          · rw [htrue]
            constructor
            · intro hfalse; exact absurd hfalse (by simp)
            · rintro (hc | hc | hc)
              · exact absurd hc h2
              · exact absurd hc h3
              · exact absurd (hc r0 rfl) h4
          · intro hfalse
            rw [htrue] at hfalse
            exact absurd hfalse (by simp)

/-- C1 (amended): in the waiting-second-view state, every failing
initialization step returns false and leaves the system uninitialized with
keyframes and map untouched; but only the raw-match failure caches the new
frame as the previous frame. The good-match, essential-matrix and inlier
failures leave the previously cached frame in place. -/
theorem C1_init_failure (env : InitEnv) (s : SlamState) (f : FrameData)
    (p : FrameData) (hinit : s.initialized = false) (hprev : s.prev = some p)
    (hkp : 100 ≤ f.keypoints.length) :
    ((twoViewInit env s f).2 = false ↔
      ((initRawMatches env s f).length < 100 ∨
       (goodInitMatches (initRawMatches env s f)).length < 50 ∨
       (∀ r, env.essential = some r → r.inliers < 30))) ∧
    ((twoViewInit env s f).2 = false →
      (twoViewInit env s f).1.initialized = false ∧
      (twoViewInit env s f).1.keyframes = s.keyframes ∧
      (twoViewInit env s f).1.mapPoints = s.mapPoints ∧
      (twoViewInit env s f).1.prev =
        (if (initRawMatches env s f).length < 100 then some f else s.prev)) := by
  obtain ⟨hiff, himpl⟩ := twoViewInit_spec env s f p hprev hkp
  refine ⟨hiff, fun hfalse => ?_⟩
  obtain ⟨ha, -, hc, hd, he⟩ := himpl hfalse
  exact ⟨by rw [ha, hinit], hc, hd, he⟩

/-- Witness for C1: with no raw matches the second view fails and the call
returns false. -/
theorem C1_witness : (twoViewInit c1cEnv c1State c1Frame).2 = false :=
  (C1_init_failure c1cEnv c1State c1Frame ⟨0, [], []⟩ rfl rfl
      (by simp [c1Frame])).1.mpr
    (Or.inl (by norm_num [initRawMatches, c1State, c1Frame,
      SlamState.prevDescriptors, slamZero]))

/-- Counterexample to C1 as stated: with 100 raw matches and an empty
essential matrix the call fails, but the cached previous frame is NOT
replaced by the new frame (the new frame is cached only in the raw-match
failure branch). -/
theorem C1_counterexample :
    (twoViewInit c1cEnv c1cState c1cFrame).2 = false ∧
    (twoViewInit c1cEnv c1cState c1cFrame).1.prev ≠ some c1cFrame := by
  obtain ⟨hiff, himpl⟩ := twoViewInit_spec c1cEnv c1cState c1cFrame c1cPrev rfl
    (by simp [c1cFrame])
  have hraw : (initRawMatches c1cEnv c1cState c1cFrame).length = 100 := by
    simp [initRawMatches, c1cEnv, c1cState, c1cFrame, c1cPrev,
      SlamState.prevDescriptors, slamZero]
  have hfalse : (twoViewInit c1cEnv c1cState c1cFrame).2 = false :=
    hiff.mpr (Or.inr (Or.inr fun r hr => by
      rw [show c1cEnv.essential = none from rfl] at hr
      cases hr))
  refine ⟨hfalse, ?_⟩
  obtain ⟨-, -, -, -, hprev⟩ := himpl hfalse
  rw [hprev, if_neg (by omega)]
  rw [show c1cState.prev = some c1cPrev from rfl]
  intro hcontra
  have himg := congrArg (fun o => (Option.map FrameData.image o).getD 0) hcontra
  simp [c1cPrev, c1cFrame] at himg

/-- Updating the cached previous frame leaves the keyframes unchanged. -/
theorem withPrev_keyframes (s : SlamState) (o : Option FrameData) :
    ({ s with prev := o } : SlamState).keyframes = s.keyframes := rfl

/-- Updating the cached previous frame leaves the tracking flag unchanged. -/
theorem withPrev_tracking (s : SlamState) (o : Option FrameData) :
    ({ s with prev := o } : SlamState).tracking = s.tracking := rfl

/-- Updating the cached previous frame leaves the pose unchanged. -/
theorem withPrev_currentPose (s : SlamState) (o : Option FrameData) :
    ({ s with prev := o } : SlamState).currentPose = s.currentPose := rfl

/-- Bumping the frame counter leaves the keyframes unchanged. -/
theorem withFC_keyframes (s : SlamState) (n : Nat) :
    ({ s with frameCount := n } : SlamState).keyframes = s.keyframes := rfl

/-- The frame counter after a bump. -/
theorem withFC_frameCount (s : SlamState) (n : Nat) :
    ({ s with frameCount := n } : SlamState).frameCount = n := rfl

/-- A failing twoViewInit call leaves the map points unchanged. -/
theorem twoViewInit_fail_mapPoints (env : InitEnv) (s : SlamState)
    (f : FrameData) :
    (twoViewInit env s f).2 = false →
    (twoViewInit env s f).1.mapPoints = s.mapPoints := by
  by_cases h1 : f.keypoints.length < 100
  · simp only [twoViewInit, if_pos h1]; intro _; trivial
  · cases hp : s.prev with
    | none =>
      simp only [twoViewInit, if_neg h1, hp]
      intro h; simp at h
    | some p =>
      by_cases h2 : (initRawMatches env s f).length < 100
      · simp only [twoViewInit, if_neg h1, hp, if_pos h2]; intro _; trivial
      · by_cases h3 : (goodInitMatches (initRawMatches env s f)).length < 50
        · simp only [twoViewInit, if_neg h1, hp, if_neg h2, if_pos h3]
          intro _; trivial
        · cases hE : env.essential with
          | none =>
            simp only [twoViewInit, if_neg h1, hp, if_neg h2, if_neg h3, hE]
            intro _; trivial
          | some r =>
            by_cases h4 : r.inliers < 30
            · simp only [twoViewInit, if_neg h1, hp, if_neg h2, if_neg h3, hE,
                if_pos h4]
              intro _; trivial
            · simp only [twoViewInit, if_neg h1, hp, if_neg h2, if_neg h3, hE,
                if_neg h4]
              intro h; simp at h

/-- C10: a processFrame call that returns false (the frame could not be
tracked) leaves the stored map points entirely unchanged: no point is marked
bad and the count is identical. -/
theorem C10_no_map_point_loss (env : FrameEnv) (s : SlamState) (f : FrameData)
    (hfail : (processFrame env s f).2 = false) :
    (processFrame env s f).1.mapPoints = s.mapPoints := by
  have hsplit : processFrame env s f =
      (if s.initialized = true then
        track env.trackEnv { s with frameCount := s.frameCount + 1 } f
       else twoViewInit env.initEnv { s with frameCount := s.frameCount + 1 } f) :=
    rfl
  by_cases hb : s.initialized = true
  · rw [hsplit, if_pos hb] at hfail ⊢
    rcases track_shape env.trackEnv { s with frameCount := s.frameCount + 1 } f with
      heq | ⟨s2, hkf, hmp, hfc, hpv, heq⟩
    · rw [heq]
    · rw [heq] at hfail ⊢
      by_cases hcond : (s2.tracking && needNewKeyFrame s2) = true
      · exfalso
        rw [if_pos hcond, createKeyFrame_tracking,
          ((Bool.and_eq_true _ _).mp hcond).1] at hfail
        simp at hfail
      · rw [if_neg hcond]
        exact hmp
  · rw [hsplit, if_neg hb] at hfail ⊢
    exact twoViewInit_fail_mapPoints env.initEnv
      { s with frameCount := s.frameCount + 1 } f hfail

/-- Witness for C10: a blank frame in the tracking state fails and the map
is unchanged. -/
theorem C10_witness :
    (processFrame envZero c2State ⟨0, [], []⟩).1.mapPoints = c2State.mapPoints :=
  C10_no_map_point_loss envZero c2State ⟨0, [], []⟩ rfl

/-- C2: for a frame processed in the Tracking state (a last keyframe is
stored), a new keyframe is created exactly when tracking is true after the
pose update, the frame counter is a multiple of KEYFRAME_INTERVAL (15), and
the Euclidean distance between the current and the last-keyframe translation
columns exceeds KEYFRAME_TRANSLATION (0.1). -/
theorem C2_keyframe_condition (env : FrameEnv) (s : SlamState) (f : FrameData)
    (hinit : s.initialized = true) (lastKF : KeyFrame)
    (hlast : s.keyframes.getLast? = some lastKF) :
    ((processFrame env s f).1.keyframes.length = s.keyframes.length + 1 ↔
      ((processFrame env s f).1.tracking = true ∧ (s.frameCount + 1) % 15 = 0 ∧
       (1 : ℝ) / 10 <
         Real.sqrt ((translationDistSq lastKF.pose
           (processFrame env s f).1.currentPose : ℚ) : ℝ))) := by
  have hsplit : processFrame env s f =
      (if s.initialized = true then
        track env.trackEnv { s with frameCount := s.frameCount + 1 } f
       else twoViewInit env.initEnv { s with frameCount := s.frameCount + 1 } f) :=
    rfl
  rw [hsplit, if_pos hinit]
  rcases track_shape env.trackEnv { s with frameCount := s.frameCount + 1 } f with
    heq | ⟨s2, hkf, hmp, hfc, hpv, heq⟩
  · rw [heq]
    constructor
    · intro hlen
      have hlen2 : s.keyframes.length = s.keyframes.length + 1 := hlen
      exact absurd hlen2 (by omega)
    · rintro ⟨htr, -, -⟩
      have htr2 : false = true := htr
      exact absurd htr2 (by simp)
  · rw [heq]
    by_cases hcond : (s2.tracking && needNewKeyFrame s2) = true
    · rw [if_pos hcond, withPrev_keyframes, withPrev_tracking,
        withPrev_currentPose, createKeyFrame_keyframes_length,
        createKeyFrame_tracking, createKeyFrame_currentPose, hkf,
        withFC_keyframes]
      obtain ⟨htr, hneed⟩ := (Bool.and_eq_true _ _).mp hcond
      have hlast2 : s2.keyframes.getLast? = some lastKF := by
        rw [hkf, withFC_keyframes]; exact hlast
      have hneed2 := (needNewKeyFrame_iff s2 lastKF hlast2).mp hneed
      have hm15 : (s.frameCount + 1) % 15 = 0 := by
        have h := hneed2.1
        rw [hfc, withFC_frameCount] at h
        exact h
      have hgate := (distSq_sqrt_gate _).mp hneed2.2
      exact ⟨fun _ => ⟨htr, hm15, hgate⟩, fun _ => rfl⟩
    · rw [if_neg hcond, withPrev_keyframes, withPrev_tracking,
        withPrev_currentPose, hkf, withFC_keyframes]
      constructor
      · intro hlenc
        exact absurd hlenc (by omega)
      · rintro ⟨htr, hm15, hsq⟩
        exfalso
        have hlast2 : s2.keyframes.getLast? = some lastKF := by
          rw [hkf, withFC_keyframes]; exact hlast
        have hm15b : s2.frameCount % 15 = 0 := by
          rw [hfc, withFC_frameCount]; exact hm15
        have hdist := (distSq_sqrt_gate _).mpr hsq
        have hneed := (needNewKeyFrame_iff s2 lastKF hlast2).mpr ⟨hm15b, hdist⟩
        exact hcond (by rw [htr, hneed]; rfl)

/-- Witness for C2 at the one-keyframe tracking state and a blank frame. -/
theorem C2_witness :
    ((processFrame envZero c2State ⟨0, [], []⟩).1.keyframes.length =
        c2State.keyframes.length + 1 ↔
      ((processFrame envZero c2State ⟨0, [], []⟩).1.tracking = true ∧
       (c2State.frameCount + 1) % 15 = 0 ∧
       (1 : ℝ) / 10 <
         Real.sqrt ((translationDistSq kfZero.pose
           (processFrame envZero c2State ⟨0, [], []⟩).1.currentPose : ℚ) : ℝ))) :=
  C2_keyframe_condition envZero c2State ⟨0, [], []⟩ rfl kfZero (by simp [c2State])

/-- Characterisation of the argmax fold of detectLoopClosure over an
abstract per-index good-match count g: either no index qualified (all counts
at most 50) or the result is the first index realising the maximal count
above 50. -/
theorem loop_fold_spec (g : Nat → Nat) (k : Nat) :
    ((List.range k).foldl
        (fun acc i => if acc.2 < g i ∧ 50 < g i then (Int.ofNat i, g i) else acc)
        ((-1 : Int), 0) = ((-1 : Int), 0) ∧ ∀ i < k, g i ≤ 50) ∨
    (∃ b < k, (List.range k).foldl
        (fun acc i => if acc.2 < g i ∧ 50 < g i then (Int.ofNat i, g i) else acc)
        ((-1 : Int), 0) = (Int.ofNat b, g b) ∧ 50 < g b ∧
        ∀ i < k, g i ≤ g b) := by
  induction k with
  | zero => exact Or.inl ⟨rfl, by omega⟩
  | succ n ih =>
    rw [List.range_succ, List.foldl_append, List.foldl_cons, List.foldl_nil]
    rcases ih with ⟨hacc, hall⟩ | ⟨b, hb, hacc, hgt, hmax⟩
    · rw [hacc]
      by_cases hc : (0 : Nat) < g n ∧ 50 < g n
      · refine Or.inr ⟨n, by omega, by simp [hc], hc.2, ?_⟩
        intro i hi
        rcases Nat.lt_succ_iff_lt_or_eq.mp hi with h1 | h1
        · exact le_trans (hall i h1) (le_of_lt hc.2)
        · subst h1; exact le_refl _
      · refine Or.inl ⟨by simp [hc], ?_⟩
        intro i hi
        rcases Nat.lt_succ_iff_lt_or_eq.mp hi with h1 | h1
        · exact hall i h1
        · subst h1; omega
    · rw [hacc]
      by_cases hc : g b < g n ∧ 50 < g n
      · refine Or.inr ⟨n, by omega, by simp [hc], hc.2, ?_⟩
        intro i hi
        rcases Nat.lt_succ_iff_lt_or_eq.mp hi with h1 | h1
        · exact le_trans (hmax i h1) (le_of_lt hc.1)
        · subst h1; exact le_refl _
      · refine Or.inr ⟨b, by omega, by simp [hc], hgt, ?_⟩
        intro i hi
        rcases Nat.lt_succ_iff_lt_or_eq.mp hi with h1 | h1
        · exact hmax i h1
        · subst h1; omega

/-- The keyframe-creation flag of createKeyFrame: loop closure detection runs
exactly when the keyframe count after insertion exceeds 10. -/
theorem createKeyFrame_snd (env : KFEnv) (s : SlamState) (img : Nat) :
    (createKeyFrame env s img).2 = true ↔ 10 < s.keyframes.length + 1 := by
  simp only [createKeyFrame, localBundleAdjustment]
  split_ifs with h2 h10 hdet <;>
    simp_all [List.length_set, List.length_append]

/-- C4: loop closure detection for a just-inserted keyframe reports a loop
exactly when some compared keyframe (index below count - 5) has more than 50
matches at Hamming distance below 40; the kept candidate realises the
maximal count; the check runs exactly when the keyframe count after
insertion exceeds 10; and the bundle adjustment hook leaves the state (its
poses and map points) unchanged. -/
theorem C4_loop_closure (loopEnv : List (List DMatch)) (kfs : List KeyFrame)
    (cur : KeyFrame) (env : KFEnv) (s : SlamState) (img : Nat) :
    (detectLoopClosure loopEnv kfs cur = true ↔
      ∃ i < kfs.length - 5, 50 < loopGoodCount loopEnv kfs cur i) ∧
    (∀ b : Nat, (loopBest loopEnv kfs cur).1 = Int.ofNat b →
      b < kfs.length - 5 ∧ 50 < loopGoodCount loopEnv kfs cur b ∧
      ∀ i < kfs.length - 5,
        loopGoodCount loopEnv kfs cur i ≤ loopGoodCount loopEnv kfs cur b) ∧
    ((createKeyFrame env s img).2 = true ↔ 10 < s.keyframes.length + 1) ∧
    localBundleAdjustment s = s := by
  have hfold := loop_fold_spec (loopGoodCount loopEnv kfs cur) (kfs.length - 5)
  have hbest : loopBest loopEnv kfs cur =
      (List.range (kfs.length - 5)).foldl
        (fun acc i =>
          if acc.2 < loopGoodCount loopEnv kfs cur i ∧
             50 < loopGoodCount loopEnv kfs cur i then
            (Int.ofNat i, loopGoodCount loopEnv kfs cur i)
          else acc)
        ((-1 : Int), 0) := rfl
  refine ⟨?_, ?_, createKeyFrame_snd env s img, rfl⟩
  · rw [show detectLoopClosure loopEnv kfs cur =
        decide (0 ≤ (loopBest loopEnv kfs cur).1) from rfl]
    rcases hfold with ⟨hacc, hall⟩ | ⟨b, hb, hacc, hgt, -⟩
    · rw [hbest, hacc]
      simp only [decide_eq_true_eq]
      constructor
      · intro hle; exact absurd hle (by norm_num)
      · rintro ⟨i, hi, hgt⟩; exact absurd (hall i hi) (by omega)
    · rw [hbest, hacc]
      simp only [decide_eq_true_eq]
      exact ⟨fun _ => ⟨b, hb, hgt⟩, fun _ => Int.ofNat_nonneg b⟩
  · intro b hb
    rcases hfold with ⟨hacc, hall⟩ | ⟨b1, hb1, hacc, hgt, hmax⟩
    · rw [hbest, hacc] at hb
      simp at hb
    · rw [hbest, hacc] at hb
      have hbb : b1 = b := by simpa using hb
      subst hbb
      exact ⟨hb1, hgt, hmax⟩

/-- Witness for C4: the bundle adjustment hook is the identity on the fresh
state. -/
theorem C4_witness : localBundleAdjustment slamZero = slamZero :=
  (C4_loop_closure [] [] kfZero ⟨[], []⟩ slamZero 0).2.2.2

/-- C8: for every ray (origin O, unit direction D) and every stored ground
plane (n, d), the hit test computes t = -(n.O + d)/(n.D) and reports no hit
exactly when abs (n.D) < 1e-6 or t < 0; otherwise it reports a hit at
O + t D with distance t and planeId -1. -/
theorem C8_ray_plane_hit_test (ray : Ray3D) (plane : Plane3D)
    (hunit : ray.dx ^ 2 + ray.dy ^ 2 + ray.dz ^ 2 = 1) :
    ((rayPlaneIntersect ray plane).hit = false ↔
      ratAbs (plane.nx * ray.dx + plane.ny * ray.dy + plane.nz * ray.dz) < 1 / 1000000 ∨
      -((plane.nx * ray.ox + plane.ny * ray.oy + plane.nz * ray.oz) + plane.d) /
        (plane.nx * ray.dx + plane.ny * ray.dy + plane.nz * ray.dz) < 0) ∧
    ((rayPlaneIntersect ray plane).hit = true →
      (rayPlaneIntersect ray plane).x =
        ray.ox + -((plane.nx * ray.ox + plane.ny * ray.oy + plane.nz * ray.oz) + plane.d) /
          (plane.nx * ray.dx + plane.ny * ray.dy + plane.nz * ray.dz) * ray.dx ∧
      (rayPlaneIntersect ray plane).y =
        ray.oy + -((plane.nx * ray.ox + plane.ny * ray.oy + plane.nz * ray.oz) + plane.d) /
          (plane.nx * ray.dx + plane.ny * ray.dy + plane.nz * ray.dz) * ray.dy ∧
      (rayPlaneIntersect ray plane).z =
        ray.oz + -((plane.nx * ray.ox + plane.ny * ray.oy + plane.nz * ray.oz) + plane.d) /
          (plane.nx * ray.dx + plane.ny * ray.dy + plane.nz * ray.dz) * ray.dz ∧
      (rayPlaneIntersect ray plane).distance =
        -((plane.nx * ray.ox + plane.ny * ray.oy + plane.nz * ray.oz) + plane.d) /
          (plane.nx * ray.dx + plane.ny * ray.dy + plane.nz * ray.dz) ∧
      (rayPlaneIntersect ray plane).planeId = -1) := by
  simp only [rayPlaneIntersect]
  split_ifs with h1 h2
  · exact ⟨⟨fun _ => Or.inl h1, fun _ => rfl⟩, fun hc => hc.elim⟩
  · exact ⟨⟨fun _ => Or.inr h2, fun _ => rfl⟩, fun hc => hc.elim⟩
  · exact ⟨⟨fun hc => hc.elim,
      fun hor => Or.elim hor (fun ha => absurd ha h1) (fun hb => absurd hb h2)⟩,
      fun _ => ⟨rfl, rfl, rfl, rfl, rfl⟩⟩

/-- Round trip: reading the row-major serialisation of bindings matToArray
back row-major recovers the matrix. -/
theorem fromRowMajor_matToArray (m : Mat4) : fromRowMajor (matToArray m) = m := by
  ext i j
  fin_cases i <;> fin_cases j <;> rfl

/-- C9 (amended): the 16-element array returned by getViewMatrix is the
ROW-major serialisation of the matrix inverse of the current camera-to-world
pose: interpreting the returned array row-major and multiplying it by the
current pose yields the identity, whenever the pose is invertible. -/
theorem C9_view_matrix_row_major (P Q : Mat4) (h1 : P * Q = 1) (h2 : Q * P = 1) :
    fromRowMajor (matToArray (getViewMatrix P)) * P = 1 := by
  have hv : getViewMatrix P = Q := by
    unfold getViewMatrix
    exact Matrix.inv_eq_right_inv h1
  rw [hv, fromRowMajor_matToArray, h2]

/-- Witness for C9 at the identity pose. -/
theorem C9_witness : fromRowMajor (matToArray (getViewMatrix 1)) * (1 : Mat4) = 1 :=
  C9_view_matrix_row_major 1 1 (by rw [one_mul]) (by rw [one_mul])

/-- Counterexample to C9 as stated: for the pose translated by (1,0,0), the
COLUMN-major reading of the returned array times the pose is not the
identity (the serialisation of matToArray is row-major, so the claimed
column-major interpretation transposes the inverse). -/
theorem C9_counterexample :
    fromColMajor (matToArray (getViewMatrix c9Pose)) * c9Pose ≠ 1 := by
  have hinv : getViewMatrix c9Pose = c9PoseInv := by
    unfold getViewMatrix
    apply Matrix.inv_eq_right_inv
    ext i j
    fin_cases i <;> fin_cases j <;>
      simp [c9Pose, c9PoseInv, Matrix.mul_apply, Fin.sum_univ_four,
        Matrix.one_apply, Matrix.vecHead, Matrix.vecTail]
  rw [hinv]
  intro hcontra
  have h30 := congrFun (congrFun hcontra 3) 0
  simp only [fromColMajor, matToArray, c9PoseInv, c9Pose, Matrix.mul_apply,
    Fin.sum_univ_four, Matrix.of_apply] at h30
  norm_num [Matrix.one_apply, Matrix.vecHead, Matrix.vecTail,
    List.getD, Matrix.cons_val_zero, Matrix.cons_val_one,
    Matrix.head_cons] at h30
  exact absurd h30 (by decide)

/-- Witness for C8 at the ray from (0,2,0) straight down onto the default
ground plane. -/
theorem C8_witness :
    (rayPlaneIntersect ⟨0, 2, 0, 0, -1, 0⟩ defaultGroundPlane).hit = true ∧
    (rayPlaneIntersect ⟨0, 2, 0, 0, -1, 0⟩ defaultGroundPlane).distance = 2 := by
  have h := C8_ray_plane_hit_test ⟨0, 2, 0, 0, -1, 0⟩ defaultGroundPlane (by norm_num)
  refine ⟨?_, ?_⟩ <;>
    norm_num [rayPlaneIntersect, ratAbs, defaultGroundPlane, Ray3D.pointAt]

/-- The rational absolute value of the embedding agrees with the
mathematical absolute value. -/
theorem ratAbs_eq_abs (q : ℚ) : ratAbs q = |q| := by
  unfold ratAbs
  split_ifs with h
  · exact (abs_of_neg h).symm
  · exact (abs_of_nonneg (not_lt.mp h)).symm

/-- The merge scan succeeds exactly when some stored plane satisfies the
merge condition (for any start index). -/
theorem findMergeableAux_isSome (p : DetectedPlane) :
    ∀ (l : List DetectedPlane) (k : Nat),
      (findMergeableAux p l k).isSome ↔ ∃ q ∈ l, mergeCond q p := by
  intro l
  induction l with
  | nil => intro k; simp [findMergeableAux]
  | cons q rest ih =>
    intro k
    by_cases h : mergeCond q p
    · simp [findMergeableAux, h]
    · simp [findMergeableAux, h, ih (k + 1)]

/-- A successful merge scan returns the index of a stored plane satisfying
the merge condition. -/
theorem findMergeableAux_some (p : DetectedPlane) :
    ∀ (l : List DetectedPlane) (k i : Nat),
      findMergeableAux p l k = some i →
      k ≤ i ∧ ∃ q, l.get? (i - k) = some q ∧ mergeCond q p := by
  intro l
  induction l with
  | nil => intro k i h; simp [findMergeableAux] at h
  | cons q rest ih =>
    intro k i h
    by_cases hc : mergeCond q p
    · simp only [findMergeableAux, if_pos hc, Option.some.injEq] at h
      subst h
      exact ⟨le_refl _, q, by simp, hc⟩
    · simp only [findMergeableAux, if_neg hc] at h
      obtain ⟨hk, q1, hget, hcond⟩ := ih (k + 1) i h
      refine ⟨by omega, q1, ?_, hcond⟩
      have : i - k = (i - (k + 1)) + 1 := by omega
      rw [this, List.get?_cons_succ]
      exact hget

/-- C6: a newly detected plane merges into an existing plane exactly when
some stored plane has the same horizontal class, absolute normal dot at
least 0.95 and center distance below 0.1 (the first such plane is chosen);
the merged plane has the midpoint center, elementwise max extents, the old
confidence plus half the new confidence clamped to 1, and the old normal. -/
theorem C6_plane_merge (planes : List DetectedPlane) (p : DetectedPlane) :
    ((findMergeablePlane planes p).isSome ↔ ∃ q ∈ planes, mergeCond q p) ∧
    (∀ i, findMergeablePlane planes p = some i →
      ∃ q, planes.get? i = some q ∧ mergeCond q p) ∧
    (∀ q, (mergePlanes q p).center = V3R.smul (1 / 2) (V3R.add q.center p.center) ∧
      (mergePlanes q p).width = max q.width p.width ∧
      (mergePlanes q p).height = max q.height p.height ∧
      (mergePlanes q p).confidence = min 1 (q.confidence + p.confidence * (1 / 2)) ∧
      (mergePlanes q p).normal = q.normal) := by
  refine ⟨findMergeableAux_isSome p planes 0, ?_, ?_⟩
  · intro i h
    obtain ⟨-, q, hget, hcond⟩ := findMergeableAux_some p planes 0 i h
    exact ⟨q, by simpa using hget, hcond⟩
  · intro q
    exact ⟨rfl, rfl, rfl, rfl, rfl⟩

/-- Linked slot lookup after a list set at an in-range index. -/
theorem getD_set_self {l : List Int} {i : Nat} (h : i < l.length) (v d : Int) :
    (l.set i v).getD i d = v := by
  rw [List.getD_eq_getElem?_getD]
  rw [List.getElem?_set_self (by simpa using h)]
  rfl

/-- C3 (amended): during triangulation, processing one match creates a map
point exactly when the descriptor distance is at most 50, the left keypoint
slot is unlinked, abs w is at least 1e-6, and the dehomogenised depth z/w is
NONNEGATIVE (the code rejects only strictly negative depth); the created
point records exactly the observations of the two keyframes and both
keypoint slots are linked to its id. -/
theorem C3_triangulation_create (st : TriState) (m : DMatch) (h : V4)
    (hq : m.queryIdx < st.kf1.mapPointIds.length)
    (ht : m.trainIdx < st.kf2.mapPointIds.length) :
    ((triangulateOne st (m, h)).mapPoints.length = st.mapPoints.length + 1 ↔
      (m.distance ≤ 50 ∧ st.kf1.mapPointIds.getD m.queryIdx (-1) < 0 ∧
       1 / 1000000 ≤ ratAbs h.w ∧ 0 ≤ h.z / h.w)) ∧
    ((m.distance ≤ 50 ∧ st.kf1.mapPointIds.getD m.queryIdx (-1) < 0 ∧
       1 / 1000000 ≤ ratAbs h.w ∧ 0 ≤ h.z / h.w) →
      (triangulateOne st (m, h)).mapPoints =
        st.mapPoints ++ [(st.nextMapPointId,
          ((MapPoint.new st.nextMapPointId ⟨h.x / h.w, h.y / h.w, h.z / h.w⟩
            (st.kf1.descriptors.getD m.queryIdx 0)).addObservation
              st.kf1.id).addObservation st.kf2.id)] ∧
      (((MapPoint.new st.nextMapPointId ⟨h.x / h.w, h.y / h.w, h.z / h.w⟩
            (st.kf1.descriptors.getD m.queryIdx 0)).addObservation
              st.kf1.id).addObservation st.kf2.id).observations =
        [st.kf1.id, st.kf2.id] ∧
      (triangulateOne st (m, h)).kf1.mapPointIds.getD m.queryIdx (-1) =
        Int.ofNat st.nextMapPointId ∧
      (triangulateOne st (m, h)).kf2.mapPointIds.getD m.trainIdx (-1) =
        Int.ofNat st.nextMapPointId) := by
  simp only [triangulateOne]
  split_ifs with g1 g2 g3 g4
  · exact ⟨⟨fun hlen => absurd hlen (by omega),
      fun hcond => absurd hcond.1 (not_le.mpr g1)⟩,
      fun hcond => absurd hcond.1 (not_le.mpr g1)⟩
  · exact ⟨⟨fun hlen => absurd hlen (by omega),
      fun hcond => absurd hcond.2.1 (not_lt.mpr g2)⟩,
      fun hcond => absurd hcond.2.1 (not_lt.mpr g2)⟩
  · exact ⟨⟨fun hlen => absurd hlen (by omega),
      fun hcond => absurd hcond.2.2.1 (not_le.mpr g3)⟩,
      fun hcond => absurd hcond.2.2.1 (not_le.mpr g3)⟩
  · exact ⟨⟨fun hlen => absurd hlen (by omega),
      fun hcond => absurd hcond.2.2.2 (not_le.mpr g4)⟩,
      fun hcond => absurd hcond.2.2.2 (not_le.mpr g4)⟩
  · refine ⟨⟨fun _ => ⟨not_lt.mp g1, not_le.mp g2, not_lt.mp g3, not_lt.mp g4⟩,
      fun _ => by simp⟩, fun _ => ⟨rfl, rfl, ?_, ?_⟩⟩
    · exact getD_set_self hq _ _
    · exact getD_set_self ht _ _

/-- Counterexample to C3 as stated: a match whose triangulated point has
depth exactly z = 0 (homogeneous (1,1,0,1)) does create a map point, though
the claimed condition requires strictly positive depth. -/
theorem C3_counterexample :
    (triangulateOne
        ⟨KeyFrame.new 0 0 1 [⟨0, 0⟩] [0], KeyFrame.new 1 1 1 [⟨0, 0⟩] [0], [], 0⟩
        (⟨0, 0, 10⟩, ⟨1, 1, 0, 1⟩)).mapPoints.length = 0 + 1 ∧
    ¬(0 < (⟨1, 1, 0, 1⟩ : V4).z / (⟨1, 1, 0, 1⟩ : V4).w) := by
  constructor
  · norm_num [triangulateOne, KeyFrame.new, ratAbs, List.getD,
      MapPoint.new, MapPoint.addObservation]
  · norm_num

/-- Witness for C3 at a match with strictly positive depth: the left
keyframe slot gets linked to the fresh map point id. -/
theorem C3_witness :
    (triangulateOne
        ⟨KeyFrame.new 2 0 1 [⟨0, 0⟩] [3], KeyFrame.new 3 1 1 [⟨0, 0⟩] [4], [], 7⟩
        (⟨0, 0, 5⟩, ⟨1, 1, 2, 1⟩)).kf1.mapPointIds.getD 0 (-1) = Int.ofNat 7 := by
  have h := C3_triangulation_create
    ⟨KeyFrame.new 2 0 1 [⟨0, 0⟩] [3], KeyFrame.new 3 1 1 [⟨0, 0⟩] [4], [], 7⟩
    ⟨0, 0, 5⟩ ⟨1, 1, 2, 1⟩ (by norm_num [KeyFrame.new]) (by norm_num [KeyFrame.new])
  exact (h.2 (by norm_num [KeyFrame.new, List.getD, ratAbs])).2.2.1

/-- C7: a per-frame detection result for a target is produced only when the
ratio-test good matches number at least 15, the homography is nonempty with
at least 15 mask inliers, the projected template corners are convex and PnP
succeeds; the reported confidence is inliers over good matches and lies in
the unit interval. -/
theorem C7_target_detection (env : TargetEnv) (target : ImageTarget)
    (d : DetectedTarget)
    (hmask : ∀ hm, env.homography = some hm →
      hm.2.length = (ratioGoodMatches env.knn).length)
    (hdet : detectOneTarget env target = some d) :
    15 ≤ (ratioGoodMatches env.knn).length ∧
    ∃ hm, env.homography = some hm ∧
      15 ≤ (hm.2.filter id).length ∧
      isContourConvex
        (([⟨0, 0⟩, ⟨target.cols, 0⟩, ⟨target.cols, target.rows⟩,
           ⟨0, target.rows⟩] : List KeyPt).map (applyH hm.1)) = true ∧
      env.pnp.isSome = true ∧
      d.confidence =
        ((hm.2.filter id).length : ℚ) / ((ratioGoodMatches env.knn).length : ℚ) ∧
      0 ≤ d.confidence ∧ d.confidence ≤ 1 := by
  by_cases hdesc : target.descriptors.isEmpty
  · rw [detectOneTarget, if_pos hdesc] at hdet
    cases hdet
  · by_cases hgood : (ratioGoodMatches env.knn).length < 15
    · simp only [detectOneTarget, if_neg hdesc, if_pos hgood] at hdet
      cases hdet
    · cases hH : env.homography with
      | none =>
        simp only [detectOneTarget, if_neg hdesc, if_neg hgood, hH] at hdet
        cases hdet
      | some hm =>
        by_cases hinl : (hm.2.filter id).length < 15
        · simp only [detectOneTarget, if_neg hdesc, if_neg hgood, hH,
            if_pos hinl] at hdet
          cases hdet
        · cases hcv : isContourConvex
              [applyH hm.1 ⟨0, 0⟩, applyH hm.1 ⟨target.cols, 0⟩,
               applyH hm.1 ⟨target.cols, target.rows⟩,
               applyH hm.1 ⟨0, target.rows⟩] with
          | false =>
            simp only [detectOneTarget, if_neg hdesc, if_neg hgood, hH,
              if_neg hinl, List.map_cons, List.map_nil, hcv,
              Bool.not_false, if_true] at hdet
            cases hdet
          | true =>
            cases hP : env.pnp with
            | none =>
              simp only [detectOneTarget, if_neg hdesc, if_neg hgood, hH,
                if_neg hinl, List.map_cons, List.map_nil, hcv, Bool.not_true,
                computePoseT, hP] at hdet
              simp at hdet
            | some rt =>
              simp only [detectOneTarget, if_neg hdesc, if_neg hgood, hH,
                if_neg hinl, List.map_cons, List.map_nil, hcv, Bool.not_true,
                computePoseT, hP] at hdet
              rw [if_neg (by simp)] at hdet
              have hdc : d.confidence =
                  ((hm.2.filter id).length : ℚ) /
                    ((ratioGoodMatches env.knn).length : ℚ) := by
                cases hdet
                rfl
              have hglen : (0 : ℚ) < ((ratioGoodMatches env.knn).length : ℚ) := by
                have h15 : (15 : ℕ) ≤ (ratioGoodMatches env.knn).length :=
                  not_lt.mp hgood
                exact_mod_cast Nat.lt_of_lt_of_le (by norm_num) h15
              refine ⟨not_lt.mp hgood, hm, rfl, not_lt.mp hinl,
                by simpa using hcv, rfl, hdc, ?_, ?_⟩
              · rw [hdc]
                positivity
              · rw [hdc]
                rw [div_le_one hglen]
                have hle : (hm.2.filter id).length ≤ hm.2.length :=
                  List.length_filter_le _ _
                rw [hmask hm hH] at hle
                exact_mod_cast hle

/-- Good matches of the C7 witness environment evaluate to fifteen copies of
the best match. -/
theorem c7_good_eval :
    ratioGoodMatches c7Env.knn = List.replicate 15 (⟨0, 0, 1⟩ : DMatch) := by
  norm_num [ratioGoodMatches, c7Env, List.replicate, List.filterMap_cons]

/-- The C7 witness environment produces a detection. -/
theorem c7_detect_isSome : (detectOneTarget c7Env c7Target).isSome = true := by
  simp only [detectOneTarget, c7_good_eval]
  norm_num [c7Env, c7Target, computePoseT, isContourConvex, convexFlags,
    applyH, List.replicate, List.filter_cons, List.range_succ, List.getD,
    List.foldl, Matrix.cons_val_zero, Matrix.cons_val_one, Matrix.head_cons,
    Matrix.vecHead, Matrix.vecTail]

/-- Witness for C7 at a fully successful concrete detection. -/
theorem C7_witness : 15 ≤ (ratioGoodMatches c7Env.knn).length := by
  obtain ⟨d, hd⟩ := Option.isSome_iff_exists.mp c7_detect_isSome
  refine (C7_target_detection c7Env c7Target d ?_ hd).1
  intro hm h
  rw [show c7Env.homography =
      some (!![1, 0, 0; 0, 1, 0; 0, 0, 1], List.replicate 15 true) from rfl] at h
  cases h
  rw [c7_good_eval]
  simp

/-- The squared norm is nonnegative. -/
theorem V3R.normSq_nonneg (v : V3R) : 0 ≤ v.normSq := by
  unfold V3R.normSq
  positivity

/-- Squared norm of a scalar multiple. -/
theorem V3R.normSq_smul (a : ℝ) (v : V3R) :
    (V3R.smul a v).normSq = a ^ 2 * v.normSq := by
  unfold V3R.smul V3R.normSq
  ring

/-- Squared norm of a negation. -/
theorem V3R.normSq_neg (v : V3R) : v.neg.normSq = v.normSq := by
  unfold V3R.neg V3R.normSq
  ring

/-- Dividing a vector by its norm yields a unit vector whenever the norm
passed the 1e-6 rejection gate. -/
theorem normSq_normalize (v : V3R) (h : ¬ v.norm < 1 / 1000000) :
    (V3R.smul (1 / v.norm) v).normSq = 1 := by
  have h0 : (0 : ℝ) < v.norm := lt_of_lt_of_le (by norm_num) (not_lt.mp h)
  have hsq : v.norm ^ 2 = v.normSq := Real.sq_sqrt (V3R.normSq_nonneg v)
  have hne : v.norm ≠ 0 := h0.ne'
  rw [V3R.normSq_smul, ← hsq]
  field_simp

/-- One RANSAC iteration keeps the best normal a unit vector. -/
theorem ransacIter_unit (points : List V3R) (acc : RansacBest)
    (tr : Nat × Nat × Nat) (hacc : 1 ≤ acc.count → acc.normal.normSq = 1) :
    1 ≤ (ransacIter points acc tr).count →
      (ransacIter points acc tr).normal.normSq = 1 := by
  simp only [ransacIter]
  split_ifs with h1 h2 h3
  · exact hacc
  · exact hacc
  · intro _
    exact normSq_normalize _ h2
  · exact hacc

/-- The whole RANSAC fold keeps the best normal a unit vector. -/
theorem ransacFold_unit (points : List V3R) :
    ∀ (samples : List (Nat × Nat × Nat)) (acc : RansacBest),
      (1 ≤ acc.count → acc.normal.normSq = 1) →
      1 ≤ (samples.foldl (ransacIter points) acc).count →
      (samples.foldl (ransacIter points) acc).normal.normSq = 1 := by
  intro samples
  induction samples with
  | nil => intro acc hacc; exact hacc
  | cons t ts ih =>
    intro acc hacc
    exact ih (ransacIter points acc t) (ransacIter_unit points acc t hacc)

/-- A successful fitPlaneRANSAC returns a unit normal with nonnegative y. -/
theorem fitPlaneRANSAC_normal (points : List V3R)
    (samples : List (Nat × Nat × Nat)) (res : V3R × ℝ × List Nat)
    (h : fitPlaneRANSAC points samples = some res) :
    res.1.normSq = 1 ∧ 0 ≤ res.1.y := by
  revert h
  simp only [fitPlaneRANSAC]
  split_ifs with h1 h2 h3
  · intro h; cases h
  · intro h; cases h
  · intro h
    cases h
    have hu := ransacFold_unit points samples ⟨0, V3R.zero, 0, []⟩
      (fun hc => absurd (show (1 : Nat) ≤ 0 from hc) (by omega)) (by omega)
    exact ⟨by rw [V3R.normSq_neg]; exact hu, le_of_lt (by simpa [V3R.neg] using h3)⟩
  · intro h
    cases h
    have hu := ransacFold_unit points samples ⟨0, V3R.zero, 0, []⟩
      (fun hc => absurd (show (1 : Nat) ≤ 0 from hc) (by omega)) (by omega)
    exact ⟨hu, not_lt.mp h3⟩

/-- computePlaneBounds does not change the normal. -/
theorem computePlaneBounds_normal (pts : List V3R) (n : V3R)
    (pl : DetectedPlane) : (computePlaneBounds pts n pl).normal = pl.normal := by
  unfold computePlaneBounds
  split_ifs <;> rfl

/-- mergePlanes keeps the existing normal. -/
theorem mergePlanes_normal (a b : DetectedPlane) :
    (mergePlanes a b).normal = a.normal := rfl

/-- One plane-extraction iteration preserves the normal invariant of every
stored plane. -/
theorem detectOnePlane_inv (samples : List (Nat × Nat × Nat)) (c : Nat)
    (remaining : List V3R) (s : PDState)
    (hs : ∀ p ∈ s.planes, PlaneNormalOk p)
    (rem1 : List V3R) (s1 : PDState)
    (h : detectOnePlane samples c remaining s = some (rem1, s1)) :
    ∀ p ∈ s1.planes, PlaneNormalOk p := by
  revert h
  unfold detectOnePlane
  split_ifs with h1
  · intro h; cases h
  · cases hfit : fitPlaneRANSAC remaining samples with
    | none => intro h; cases h
    | some res =>
      obtain ⟨normal, d0, inliers⟩ := res
      obtain ⟨hunitSq, hy⟩ := fitPlaneRANSAC_normal remaining samples _ hfit
      by_cases h2 : inliers.length < 50
      · simp only [if_pos h2]
        intro h; cases h
      · simp only [if_neg h2]
        cases hfind : findMergeablePlane s.planes
            (computePlaneBounds (inliers.map fun idx => remaining.getD idx V3R.zero)
              normal
              { id := s.nextPlaneId, center := V3R.zero, normal := normal,
                width := 0, height := 0, corners := [],
                isHorizontal := isPlaneHorizontal normal,
                confidence := (inliers.length : ℝ) / (c : ℝ) }) with
        | none =>
          intro h
          cases h
          intro p hp
          rcases List.mem_append.mp hp with hold | hnew
          · exact hs p hold
          · have hpn : p = computePlaneBounds
                (inliers.map fun idx => remaining.getD idx V3R.zero) normal
                { id := s.nextPlaneId, center := V3R.zero, normal := normal,
                  width := 0, height := 0, corners := [],
                  isHorizontal := isPlaneHorizontal normal,
                  confidence := (inliers.length : ℝ) / (c : ℝ) } := by
              simpa using hnew
            rw [hpn]
            constructor
            · rw [computePlaneBounds_normal]; exact hunitSq
            · rw [computePlaneBounds_normal]; exact hy
        | some i =>
          intro h
          cases h
          intro p hp
          rcases List.mem_or_eq_of_mem_set hp with hold | hmerged
          · exact hs p hold
          · obtain ⟨-, q, hget, -⟩ := findMergeableAux_some _ s.planes 0 i hfind
            have hgetD : s.planes.getD i defaultPlane = q := by
              rw [List.getD_eq_getElem?_getD]
              simp only [Nat.sub_zero] at hget
              rw [← List.get?_eq_getElem?, hget]
              rfl
            have hq : q ∈ s.planes := by
              apply List.get?_mem
              simpa using hget
            refine ⟨?_, ?_⟩
            · rw [hmerged, mergePlanes_normal, hgetD]
              exact (hs q hq).1
            · rw [hmerged, mergePlanes_normal, hgetD]
              exact (hs q hq).2

/-- The bounded extraction loop preserves the normal invariant. -/
theorem detectPlanesLoop_inv :
    ∀ (fuel : Nat) (envs : List (List (Nat × Nat × Nat))) (c : Nat)
      (remaining : List V3R) (s : PDState),
      (∀ p ∈ s.planes, PlaneNormalOk p) →
      ∀ p ∈ (detectPlanesLoop fuel envs c remaining s).planes, PlaneNormalOk p := by
  intro fuel
  induction fuel with
  | zero => intro envs c rem s hs; exact hs
  | succ k ih =>
    intro envs c rem s hs
    cases hstep : detectOnePlane (envs.headD []) c rem s with
    | none => simp only [detectPlanesLoop, hstep]; exact hs
    | some r =>
      obtain ⟨rem1, s1⟩ := r
      simp only [detectPlanesLoop, hstep]
      exact ih envs.tail c rem1 s1
        (detectOnePlane_inv (envs.headD []) c rem s hs rem1 s1 hstep)

/-- A detectPlanes call preserves the normal invariant. -/
theorem detectPlanes_inv (env : List (List (Nat × Nat × Nat))) (pts : List V3R)
    (s : PDState) (hs : ∀ p ∈ s.planes, PlaneNormalOk p) :
    ∀ p ∈ (detectPlanes env pts s).planes, PlaneNormalOk p := by
  unfold detectPlanes
  split_ifs with h
  · exact hs
  · exact detectPlanesLoop_inv 3 env pts.length pts s hs

/-- C5: every plane stored by the plane detector in any reachable state
(newly fitted or merged arbitrarily often) has a normal with nonnegative y
component and unit Euclidean norm within 1e-4. -/
theorem C5_plane_normal_invariant (s : PDState) (hs : PDReachable s) :
    ∀ p ∈ s.planes, 0 ≤ p.normal.y ∧ |p.normal.norm - 1| ≤ 1 / 10000 := by
  have hok : ∀ p ∈ s.planes, PlaneNormalOk p := by
    induction hs with
    | init => intro p hp; cases hp
    | step env pts s0 hs0 ih => exact detectPlanes_inv env pts s0 ih
  intro p hp
  obtain ⟨h1, h2⟩ := hok p hp
  refine ⟨h2, ?_⟩
  have hn : p.normal.norm = 1 := by
    rw [V3R.norm, h1, Real.sqrt_one]
  rw [hn]
  norm_num

/-- Witness for C5 at the initial empty detector state. -/
theorem C5_witness :
    (⟨[], 0⟩ : PDState).planes.Forall
      (fun p => 0 ≤ p.normal.y ∧ |p.normal.norm - 1| ≤ 1 / 10000) :=
  List.forall_iff_forall_mem.mpr
    (C5_plane_normal_invariant ⟨[], 0⟩ PDReachable.init)

/-- Witness for C6 at the empty plane list and the default plane. -/
theorem C6_witness :
    (mergePlanes defaultPlane defaultPlane).width =
      max defaultPlane.width defaultPlane.width :=
  ((C6_plane_merge [] defaultPlane).2.2 defaultPlane).2.1

end ARSpec
